import Mathlib

/-!
Shallow embedding of the ray tracer in src/src/main.rs.

The Rust code computes with f64; this development idealises f64 arithmetic
as real arithmetic (ℝ): `f64::sqrt` becomes `Real.sqrt`, `f64::min`/`max`
become `min`/`max` on ℝ, and the float literals of the source (0.5, 1e-6,
255.0, …) are the corresponding exact rationals.  `u32` becomes ℕ.
Every definition is translated from the source file; the names follow the
Rust names.
-/

namespace RT

noncomputable section

/-- cgmath `Vector3<f64>`. -/
structure Vector3 where
  x : ℝ
  y : ℝ
  z : ℝ

/-- cgmath `Point3<f64>`. -/
structure Point3 where
  x : ℝ
  y : ℝ
  z : ℝ

/-- cgmath dot product `v.dot(w)`. -/
def Vector3.dot (v w : Vector3) : ℝ :=
  v.x * w.x + v.y * w.y + v.z * w.z

/-- cgmath vector negation `-v`. -/
def Vector3.neg (v : Vector3) : Vector3 :=
  ⟨-v.x, -v.y, -v.z⟩

/-- cgmath `vector * scalar` (used as `ray.direction * d` and inside
`normalize`). -/
def Vector3.smul (v : Vector3) (c : ℝ) : Vector3 :=
  ⟨v.x * c, v.y * c, v.z * c⟩

/-- cgmath `magnitude` = sqrt of the dot product with itself. -/
def Vector3.magnitude (v : Vector3) : ℝ :=
  Real.sqrt (v.dot v)

/-- cgmath `InnerSpace::normalize`: `self * (1 / magnitude)`. -/
def Vector3.normalize (v : Vector3) : Vector3 :=
  v.smul (1 / v.magnitude)

/-- cgmath `Point3 - Point3 = Vector3`. -/
def Point3.sub (p q : Point3) : Vector3 :=
  ⟨p.x - q.x, p.y - q.y, p.z - q.z⟩

/-- cgmath `Point3 + Vector3 = Point3` (used as `ray.origin + ray.direction * d`). -/
def Point3.addVec (p : Point3) (v : Vector3) : Point3 :=
  ⟨p.x + v.x, p.y + v.y, p.z + v.z⟩

/-- `image::Rgb<f64>`: `data[0]`, `data[1]`, `data[2]` are the red, green
and blue channels. -/
structure RgbF where
  r : ℝ
  g : ℝ
  b : ℝ

/-- An 8-bit RGB pixel as stored in the `new_rgb8` image buffer. -/
structure Rgb8 where
  r : ℕ
  g : ℕ
  b : ℕ
deriving DecidableEq

/-- `image::Rgba<u8>` (the type of the `BLACK` constant). -/
structure Rgba8 where
  r : ℕ
  g : ℕ
  b : ℕ
  a : ℕ
deriving DecidableEq

/-- `GenericImage::put_pixel` on an RGB8 image stores an `Rgba` pixel by
dropping its alpha channel (`to_rgb`). -/
def Rgba8.toRgb (c : Rgba8) : Rgb8 :=
  ⟨c.r, c.g, c.b⟩

/-- `struct Sphere`. -/
structure Sphere where
  radius : ℝ
  albedo : ℝ
  color : RgbF
  center : Point3

/-- `struct Plane`. -/
structure Plane where
  point : Point3
  albedo : ℝ
  normal : Vector3
  color : RgbF

/-- `enum Object`. -/
inductive Object where
  | plane (p : Plane)
  | sphere (s : Sphere)

/-- `struct DirLight`. -/
structure DirLight where
  direction : Vector3
  intensity : ℝ
  color : RgbF

/-- `enum Light` (a single variant). -/
inductive Light where
  | dirLight (d : DirLight)

/-- `struct Ray`. -/
structure Ray where
  origin : Point3
  direction : Vector3

/-- `struct Scene`. -/
structure Scene where
  width : ℕ
  height : ℕ
  fov : ℝ
  objects : List Object
  light : Light

/-- `Object::get_color`. -/
def Object.get_color : Object → RgbF
  | .sphere s => s.color
  | .plane p => p.color

/-- `Object::get_albedo`. -/
def Object.get_albedo : Object → ℝ
  | .sphere s => s.albedo
  | .plane p => p.albedo

/-- The intermediate `adj` of `Sphere::intersection`:
`center_l.dot(ray.direction)` where `center_l = self.center - ray.origin`. -/
def Sphere.adj (s : Sphere) (ray : Ray) : ℝ :=
  (s.center.sub ray.origin).dot ray.direction

/-- The intermediate `d_squared` of `Sphere::intersection`:
`center_l.dot(center_l) - adj * adj`. -/
def Sphere.dSquared (s : Sphere) (ray : Ray) : ℝ :=
  (s.center.sub ray.origin).dot (s.center.sub ray.origin) - s.adj ray * s.adj ray

/-- `Sphere::intersection`: if `r_squared > d_squared` then
`Some(adj - (r_squared - d_squared).sqrt())` else `None`. -/
def Sphere.intersection (s : Sphere) (ray : Ray) : Option ℝ :=
  if s.radius * s.radius > s.dSquared ray then
    some (s.adj ray - Real.sqrt (s.radius * s.radius - s.dSquared ray))
  else
    none

/-- `Sphere::normal_vec`: `(*hit_p - self.center).normalize()`. -/
def Sphere.normal_vec (s : Sphere) (hit_p : Point3) : Vector3 :=
  (hit_p.sub s.center).normalize

/-- `Plane::intersection`: `denom = normal.dot(direction)`; if
`denom > 1e-6` and `distance = (point - origin).dot(normal) / denom >= 0`
then `Some(distance)` else `None`. -/
def Plane.intersection (p : Plane) (ray : Ray) : Option ℝ :=
  if p.normal.dot ray.direction > 1e-6 then
    if (p.point.sub ray.origin).dot p.normal / p.normal.dot ray.direction ≥ 0 then
      some ((p.point.sub ray.origin).dot p.normal / p.normal.dot ray.direction)
    else
      none
  else
    none

/-- `Plane::normal_vec`: `-self.normal`, ignoring the hit point. -/
def Plane.normal_vec (p : Plane) (_ : Point3) : Vector3 :=
  p.normal.neg

/-- `Object::intersection` (dispatch). -/
def Object.intersection : Object → Ray → Option ℝ
  | .plane p, ray => p.intersection ray
  | .sphere s, ray => s.intersection ray

/-- `Object::normal_vec` (dispatch). -/
def Object.normal_vec : Object → Point3 → Vector3
  | .plane p, hit => p.normal_vec hit
  | .sphere s, hit => s.normal_vec hit

/-- `const HALF_PIXEL: f64 = 0.5`. -/
def HALF_PIXEL : ℝ := 0.5

/-- `const BLACK: Rgba<u8> = Rgba { data: [70,70,70,1] }` — the background
pixel written on a miss. -/
def BLACK : Rgba8 := ⟨70, 70, 70, 1⟩

/-- `const ALBEDO_DEFAULT: f64 = 0.99`. -/
def ALBEDO_DEFAULT : ℝ := 0.99

/-- `color_mul_const`: each channel is `((channel * constant)/255).min(255).max(0)`. -/
def color_mul_const (color : RgbF) (constant : ℝ) : RgbF :=
  ⟨max (min (color.r * constant / 255) 255) 0,
   max (min (color.g * constant / 255) 255) 0,
   max (min (color.b * constant / 255) 255) 0⟩

/-- `color_mul_color`: red and green channels come from the matching
channels of both inputs, but the blue output uses `color2.data[1]` (the
GREEN channel of the second color), exactly as the source does. -/
def color_mul_color (color color2 : RgbF) : RgbF :=
  ⟨max (min (color.r * color2.r / 255) 255) 0,
   max (min (color.g * color2.g / 255) 255) 0,
   max (min (color.b * color2.g / 255) 255) 0⟩

/-- Every channel of the color lies in the interval [0, 255]. -/
def RgbF.inRange (c : RgbF) : Prop :=
  (0 ≤ c.r ∧ c.r ≤ 255) ∧ (0 ≤ c.g ∧ c.g ≤ 255) ∧ (0 ≤ c.b ∧ c.b ≤ 255)

/-- Rust `f64::round`: round half away from zero (Lean's `round` rounds half
up, which differs on negative half-integers). -/
def f64Round (x : ℝ) : ℤ :=
  if x < 0 then -round (-x) else round x

/-- Rust `as u8` on a float: saturating cast into `0..=255` (NaN does not
arise in the ℝ model). -/
def f64AsU8 (x : ℝ) : ℕ :=
  (min 255 (max 0 (f64Round x))).toNat

/-- `rgbf64_to_rgb8`: `color.data[i].round() as u8` on each channel. -/
def rgbf64_to_rgb8 (color : RgbF) : Rgb8 :=
  ⟨f64AsU8 color.r, f64AsU8 color.g, f64AsU8 color.b⟩

/-- `Ray::create_prime`. -/
def Ray.create_prime (x y : ℕ) (scene : Scene) : Ray :=
  ⟨⟨0, 0, 0⟩,
   (Vector3.mk
      ((((x : ℝ) + HALF_PIXEL) / ((scene.width : ℝ) / 2) - 1) *
        ((scene.width : ℝ) / (scene.height : ℝ)))
      (1 - ((y : ℝ) + HALF_PIXEL) / ((scene.height : ℝ) / 2))
      (-1)).normalize⟩

/-- The shaded color of the hit branch of `Scene::render`:
`light_p = (albedo / PI) * intensity * normal_vec(origin + direction*d).dot(-direction.normalize()).max(0)`,
pixel = `rgbf64_to_rgb8(color_mul_const(color_mul_color(get_color, light.color), light_p))`. -/
def hitColor (obj : Object) (d_l : DirLight) (ray : Ray) (d : ℝ) : Rgb8 :=
  rgbf64_to_rgb8
    (color_mul_const (color_mul_color obj.get_color d_l.color)
      (obj.get_albedo / Real.pi * d_l.intensity *
        max ((obj.normal_vec (ray.origin.addVec (ray.direction.smul d))).dot
              d_l.direction.normalize.neg) 0))

/-- Whether a `Light` value matches the `Light::DirLight(_)` pattern. -/
def Light.isDirLight : Light → Bool
  | .dirLight _ => true

/-- The payload of the (only) `Light::DirLight` variant. -/
def Light.dirLightData : Light → DirLight
  | .dirLight d => d

/-- The body of the per-object loop of `Scene::render`, with the
`_ => panic!("not done yet")` arm of the light match made explicit as an
`Except.error`: on a hit, the light dispatch shades the pixel (or would
panic on an unsupported variant); on a miss the pixel is overwritten with
`BLACK`. -/
def shadePixelE (light : Light) (ray : Ray) (obj : Object) : Except String Rgb8 :=
  match obj.intersection ray with
  | some d =>
      if light.isDirLight then
        Except.ok (hitColor obj light.dirLightData ray d)
      else
        Except.error "not done yet"
  | none => Except.ok BLACK.toRgb

/-- The per-object loop body with the (dead) panic arm removed: the total
function `shadePixelE` provably computes. -/
def shadePixel (light : Light) (ray : Ray) (obj : Object) : Rgb8 :=
  match obj.intersection ray with
  | some d => hitColor obj light.dirLightData ray d
  | none => BLACK.toRgb

/-- `DynamicImage::new_rgb8` zero-fills its buffer: every pixel starts out
as (0,0,0). -/
def newRgb8Pixel : Rgb8 := ⟨0, 0, 0⟩

/-- The inner object loop of `Scene::render` at one pixel, panic-aware:
each object in stored order overwrites the pixel (`put_pixel` runs in both
branches), starting from the buffer's initial value. -/
def renderPixelE (scene : Scene) (x y : ℕ) (init : Rgb8) : Except String Rgb8 :=
  scene.objects.foldlM
    (fun _px obj => shadePixelE scene.light (Ray.create_prime x y scene) obj) init

/-- The inner object loop of `Scene::render` at one pixel (total form). -/
def renderPixel (scene : Scene) (x y : ℕ) (init : Rgb8) : Rgb8 :=
  scene.objects.foldl
    (fun _px obj => shadePixel scene.light (Ray.create_prime x y scene) obj) init

/-- `Scene::render` as the pixel grid it produces: the pixel at (x, y)
after the double loop, starting from the zero-filled `new_rgb8` buffer. -/
def Scene.render (scene : Scene) (x y : ℕ) : Rgb8 :=
  renderPixel scene x y newRgb8Pixel

/-! ### Concrete values used in examples and witnesses -/

/-- The sphere of the source's `test_scene`: center (0,0,-7), radius 2. -/
def exSphere : Sphere := ⟨2, ALBEDO_DEFAULT, ⟨255, 255, 0⟩, ⟨0, 0, -7⟩⟩

/-- A ray from the origin straight down the negative z axis. -/
def exRay : Ray := ⟨⟨0, 0, 0⟩, ⟨0, 0, -1⟩⟩

/-- A sphere far off to the side, missed by `exRay`. -/
def exSphereFar : Sphere := ⟨2, ALBEDO_DEFAULT, ⟨255, 0, 0⟩, ⟨100, 0, -7⟩⟩

/-- The directional light of the source's `test_scene`. -/
def exDirLight : DirLight := ⟨⟨-8, -10, -9⟩, 1000, ⟨230, 230, 230⟩⟩

/-- A 1-by-1 scene listing the hit sphere before the missed sphere. -/
def exSceneTwo : Scene :=
  ⟨1, 1, 90, [.sphere exSphere, .sphere exSphereFar], .dirLight exDirLight⟩

/-- A 1-by-1 scene with no objects. -/
def exSceneEmpty : Scene := ⟨1, 1, 90, [], .dirLight exDirLight⟩

/-- A sphere whose center lies behind the origin of `exRay` (at z = +5
while the ray points toward negative z). -/
def exSphereBehind : Sphere := ⟨2, ALBEDO_DEFAULT, ⟨255, 255, 0⟩, ⟨0, 0, 5⟩⟩

/-- A directional light pointing along positive z. -/
def exDirLightZ : DirLight := ⟨⟨0, 0, 1⟩, 1000, ⟨230, 230, 230⟩⟩

/-- A 1-by-1 scene containing only `exSphereBehind`. -/
def exSceneBehind : Scene :=
  ⟨1, 1, 90, [.sphere exSphereBehind], .dirLight exDirLightZ⟩

/-! ### Helper lemmas -/

theorem dot_self_nonneg (v : Vector3) : 0 ≤ v.dot v := by
  simp only [Vector3.dot]
  nlinarith [mul_self_nonneg v.x, mul_self_nonneg v.y, mul_self_nonneg v.z]

theorem normalize_dot_self (v : Vector3) (h : v.dot v ≠ 0) :
    v.normalize.dot v.normalize = 1 := by
  have hD : 0 ≤ v.dot v := dot_self_nonneg v
  have hs : Real.sqrt (v.dot v) * Real.sqrt (v.dot v) = v.dot v :=
    Real.mul_self_sqrt hD
  have hsne : Real.sqrt (v.dot v) ≠ 0 := by
    intro h0
    rw [h0, mul_zero] at hs
    exact h hs.symm
  simp only [Vector3.normalize, Vector3.magnitude, Vector3.smul, Vector3.dot] at *
  field_simp

theorem magnitude_normalize (v : Vector3) (h : v.dot v ≠ 0) :
    v.normalize.magnitude = 1 := by
  rw [Vector3.magnitude, normalize_dot_self v h, Real.sqrt_one]

theorem sqrt_four : Real.sqrt 4 = 2 := by
  rw [show (4 : ℝ) = 2 * 2 by norm_num, Real.sqrt_mul_self (by norm_num : (0 : ℝ) ≤ 2)]

/-- On a 1-by-1 scene the primary ray of pixel (0,0) is the negative z axis. -/
theorem create_prime_1x1 (s : Scene) (hw : s.width = 1) (hh : s.height = 1) :
    Ray.create_prime 0 0 s = ⟨⟨0, 0, 0⟩, ⟨0, 0, -1⟩⟩ := by
  rw [Ray.create_prime, hw, hh]
  norm_num [HALF_PIXEL, Vector3.normalize, Vector3.magnitude, Vector3.dot,
    Vector3.smul, Real.sqrt_one]

theorem exSphere_adj : exSphere.adj exRay = 7 := by
  simp [Sphere.adj, exSphere, exRay, Point3.sub, Vector3.dot]

theorem exSphere_dSquared : exSphere.dSquared exRay = 0 := by
  rw [Sphere.dSquared, exSphere_adj]
  simp [exSphere, exRay, Point3.sub, Vector3.dot]

theorem exSphere_hit : exSphere.intersection exRay = some 5 := by
  rw [Sphere.intersection, exSphere_dSquared, exSphere_adj]
  norm_num [exSphere, sqrt_four]

theorem exSphereFar_miss : exSphereFar.intersection exRay = none := by
  rw [Sphere.intersection]
  have hadj : exSphereFar.adj exRay = 7 := by
    simp [Sphere.adj, exSphereFar, exRay, Point3.sub, Vector3.dot]
  have hd : exSphereFar.dSquared exRay = 10000 := by
    rw [Sphere.dSquared, hadj]
    simp [exSphereFar, exRay, Point3.sub, Vector3.dot]
    norm_num
  rw [hd, hadj]
  norm_num [exSphereFar]

theorem clamp_range (v : ℝ) : 0 ≤ max (min v 255) 0 ∧ max (min v 255) 0 ≤ 255 :=
  ⟨le_max_right _ _, max_le (min_le_right _ _) (by norm_num)⟩

theorem dot_z_neg_one_ne_zero (a b : ℝ) :
    (Vector3.mk a b (-1)).dot (Vector3.mk a b (-1)) ≠ 0 := by
  simp only [Vector3.dot]
  nlinarith [mul_self_nonneg a, mul_self_nonneg b]

theorem shadePixelE_ok (light : Light) (ray : Ray) (obj : Object) :
    shadePixelE light ray obj = Except.ok (shadePixel light ray obj) := by
  cases light with
  | dirLight dl =>
    cases h : obj.intersection ray <;>
      simp [shadePixelE, shadePixel, Light.isDirLight, h]

theorem foldlM_except_ok {α β : Type} (g : β → α → β) (l : List α) (init : β)
    (f : β → α → Except String β) (hf : ∀ b a, f b a = Except.ok (g b a)) :
    l.foldlM f init = Except.ok (l.foldl g init) := by
  induction l generalizing init with
  | nil => rfl
  | cons a t ih =>
    simp only [List.foldlM_cons, List.foldl_cons, hf, ih]
    rfl

theorem exSphereBehind_adj : exSphereBehind.adj exRay = -5 := by
  simp [Sphere.adj, exSphereBehind, exRay, Point3.sub, Vector3.dot]

theorem exSphereBehind_dSquared : exSphereBehind.dSquared exRay = 0 := by
  rw [Sphere.dSquared, exSphereBehind_adj]
  simp [exSphereBehind, exRay, Point3.sub, Vector3.dot]

theorem exSphereBehind_hit : exSphereBehind.intersection exRay = some (-7) := by
  rw [Sphere.intersection, exSphereBehind_dSquared, exSphereBehind_adj]
  norm_num [exSphereBehind, sqrt_four]

theorem exSphereBehind_hitColor :
    hitColor (Object.sphere exSphereBehind) exDirLightZ exRay (-7) = ⟨0, 0, 0⟩ := by
  have hnorm : Sphere.normal_vec exSphereBehind ⟨0, 0, 7⟩ = ⟨0, 0, 1⟩ := by
    rw [Sphere.normal_vec]
    norm_num [exSphereBehind, Point3.sub, Vector3.normalize, Vector3.magnitude,
      Vector3.dot, Vector3.smul, sqrt_four]
  have hlight : exDirLightZ.direction.normalize.neg = Vector3.mk 0 0 (-1) := by
    norm_num [exDirLightZ, Vector3.normalize, Vector3.magnitude, Vector3.dot,
      Vector3.smul, Vector3.neg, Real.sqrt_one]
  have hhit : exRay.origin.addVec (exRay.direction.smul (-7)) = Point3.mk 0 0 7 := by
    norm_num [exRay, Point3.addVec, Vector3.smul]
  rw [hitColor]
  simp only [Object.normal_vec, Object.get_albedo, Object.get_color, hhit, hnorm, hlight]
  norm_num [Vector3.dot, color_mul_color, color_mul_const, rgbf64_to_rgb8,
    f64AsU8, f64Round, exSphereBehind, exDirLightZ]

/-! ### Claim theorems -/

/-- C1: in `Scene::render` every object independently overwrites the pixel
(shaded color on hit, background on miss), so the final pixel color is
decided by the last object of the list: if the primary ray of pixel (x, y)
hits an object listed before the last object but misses the last object,
the rendered pixel is the background color `BLACK`, not the earlier
object's shaded color. -/
theorem render_last_object_wins (scene : Scene) (x y : ℕ) (front : List Object)
    (objA objB : Object) (dA : ℝ)
    (hobjs : scene.objects = front ++ [objB])
    (hA : objA ∈ front)
    (hAhit : objA.intersection (Ray.create_prime x y scene) = some dA)
    (hBmiss : objB.intersection (Ray.create_prime x y scene) = none) :
    scene.render x y = BLACK.toRgb := by
  rw [Scene.render, renderPixel, hobjs, List.foldl_append]
  simp [shadePixel, hBmiss]

/-- C1 witness: in a concrete 1-by-1 scene whose primary ray hits the first
sphere (at distance 5) and misses the second, the pixel renders as
background. -/
theorem render_last_object_wins_witness : exSceneTwo.render 0 0 = BLACK.toRgb :=
  render_last_object_wins exSceneTwo 0 0 [Object.sphere exSphere]
    (Object.sphere exSphere) (Object.sphere exSphereFar) 5
    rfl
    (by simp)
    (by rw [create_prime_1x1 exSceneTwo rfl rfl]
        show exSphere.intersection exRay = some 5
        exact exSphere_hit)
    (by rw [create_prime_1x1 exSceneTwo rfl rfl]
        show exSphereFar.intersection exRay = none
        exact exSphereFar_miss)

/-- C2, corrected: with an empty objects list the inner loop of
`Scene::render` never runs, so `put_pixel` is never called and every pixel
keeps the zero value of the freshly allocated `new_rgb8` buffer, (0,0,0) —
which is not the background color (70,70,70). -/
theorem render_empty_is_initial (scene : Scene) (h : scene.objects = [])
    (x y : ℕ) :
    scene.render x y = newRgb8Pixel ∧ newRgb8Pixel ≠ BLACK.toRgb := by
  constructor
  · rw [Scene.render, renderPixel, h]
    rfl
  · simp [newRgb8Pixel, BLACK, Rgba8.toRgb]

/-- C2 witness: the concrete empty 1-by-1 scene renders pixel (0,0) as the
buffer's initial value, not as background. -/
theorem render_empty_is_initial_witness :
    exSceneEmpty.render 0 0 = newRgb8Pixel ∧ newRgb8Pixel ≠ BLACK.toRgb :=
  render_empty_is_initial exSceneEmpty rfl 0 0

/-- C2 counterexample: the claim "every pixel of an empty-list scene has
the background color (70,70,70)" is false at the concrete empty 1-by-1
scene: its pixel (0,0) is not the background color. -/
theorem render_empty_not_background : exSceneEmpty.render 0 0 ≠ BLACK.toRgb := by
  rw [Scene.render, renderPixel]
  simp [exSceneEmpty, newRgb8Pixel, BLACK, Rgba8.toRgb]

/-- C3: for a sphere of positive radius, `Sphere::intersection` returns
`some` exactly when the squared radius exceeds `d_squared` (the squared
perpendicular distance computed by the code), and then returns
`adj - sqrt(radius^2 - d_squared)`; otherwise `none`.  On the concrete
sphere centered (0,0,-7) with radius 2 and the ray from the origin along
(0,0,-1), the returned distance is 5. -/
theorem sphere_intersection_spec :
    (∀ (s : Sphere) (ray : Ray), 0 < s.radius →
      (s.dSquared ray < s.radius * s.radius →
        s.intersection ray =
          some (s.adj ray - Real.sqrt (s.radius * s.radius - s.dSquared ray))) ∧
      (s.radius * s.radius ≤ s.dSquared ray → s.intersection ray = none) ∧
      ((s.intersection ray).isSome ↔ s.dSquared ray < s.radius * s.radius)) ∧
    exSphere.intersection exRay = some 5 := by
  constructor
  · intro s ray _h
    refine ⟨?_, ?_, ?_⟩
    · intro hlt
      rw [Sphere.intersection, if_pos hlt]
    · intro hle
      rw [Sphere.intersection, if_neg (not_lt.mpr hle)]
    · rw [Sphere.intersection]
      split_ifs with h <;> simp [h]
  · exact exSphere_hit

/-- C4: `Plane::intersection` returns `none` whenever
`denom = normal.dot(direction)` is at most 1e-6; when `denom > 1e-6` it
returns `some(((point - origin).dot(normal)) / denom)` if that value is
nonnegative and `none` if it is negative. -/
theorem plane_intersection_spec (p : Plane) (ray : Ray) :
    (p.normal.dot ray.direction ≤ 1e-6 → p.intersection ray = none) ∧
    (1e-6 < p.normal.dot ray.direction →
      (0 ≤ (p.point.sub ray.origin).dot p.normal / p.normal.dot ray.direction →
        p.intersection ray =
          some ((p.point.sub ray.origin).dot p.normal / p.normal.dot ray.direction)) ∧
      ((p.point.sub ray.origin).dot p.normal / p.normal.dot ray.direction < 0 →
        p.intersection ray = none)) := by
  constructor
  · intro h
    rw [Plane.intersection, if_neg (not_lt.mpr h)]
  · intro h
    constructor
    · intro hd
      rw [Plane.intersection, if_pos h, if_pos hd]
    · intro hd
      rw [Plane.intersection, if_pos h, if_neg (not_le.mpr hd)]

/-- C5: `color_mul_color` computes the red and green output channels from
the matching channels of both inputs, but the blue output channel from the
GREEN channel of the second color; on the concrete pair
((0,0,255), (0,0,255)) the blue output is 0, while using the second
color's blue channel would give 255. -/
theorem color_mul_color_blue_from_green :
    (∀ a b : RgbF,
      color_mul_color a b =
        ⟨max (min (a.r * b.r / 255) 255) 0,
         max (min (a.g * b.g / 255) 255) 0,
         max (min (a.b * b.g / 255) 255) 0⟩) ∧
    (color_mul_color ⟨0, 0, 255⟩ ⟨0, 0, 255⟩).b = 0 ∧
    max (min ((RgbF.mk 0 0 255).b * (RgbF.mk 0 0 255).b / 255) 255) 0 = 255 := by
  refine ⟨fun a b => rfl, ?_, ?_⟩ <;> norm_num [color_mul_color]

/-- C6: for non-negative inputs (finiteness is inherent in the ℝ model),
both `color_mul_const` and `color_mul_color` return colors with every
channel in [0, 255]. -/
theorem color_ops_clamped (c c2 : RgbF) (k : ℝ)
    (hr : 0 ≤ c.r) (hg : 0 ≤ c.g) (hb : 0 ≤ c.b) (hk : 0 ≤ k)
    (hr2 : 0 ≤ c2.r) (hg2 : 0 ≤ c2.g) (hb2 : 0 ≤ c2.b) :
    (color_mul_const c k).inRange ∧ (color_mul_color c c2).inRange := by
  constructor <;>
    exact ⟨clamp_range _, clamp_range _, clamp_range _⟩

/-- C6 witness: the clamp invariant at a concrete color, scalar and second
color. -/
theorem color_ops_clamped_witness :
    (color_mul_const ⟨10, 20, 30⟩ 100).inRange ∧
    (color_mul_color ⟨10, 20, 30⟩ ⟨40, 50, 60⟩).inRange :=
  color_ops_clamped ⟨10, 20, 30⟩ ⟨40, 50, 60⟩ 100
    (by norm_num) (by norm_num) (by norm_num) (by norm_num)
    (by norm_num) (by norm_num) (by norm_num)

/-- C7: `Ray::create_prime` returns origin (0,0,0) and the normalization
of (canvas_x, canvas_y, -1) with canvas_x = (((x+0.5)/(width/2)) - 1) *
(width/height) and canvas_y = 1 - (y+0.5)/(height/2); the direction has
magnitude 1; and the scene's `fov` (and everything else but width and
height) has no effect on the result. -/
theorem create_prime_spec :
    (∀ (x y : ℕ) (s : Scene),
      Ray.create_prime x y s =
        ⟨⟨0, 0, 0⟩,
         (Vector3.mk
            ((((x : ℝ) + 0.5) / ((s.width : ℝ) / 2) - 1) *
              ((s.width : ℝ) / (s.height : ℝ)))
            (1 - ((y : ℝ) + 0.5) / ((s.height : ℝ) / 2))
            (-1)).normalize⟩) ∧
    (∀ (x y : ℕ) (s : Scene), (Ray.create_prime x y s).direction.magnitude = 1) ∧
    (∀ (x y w h : ℕ) (fov1 fov2 : ℝ) (o1 o2 : List Object) (l1 l2 : Light),
      Ray.create_prime x y ⟨w, h, fov1, o1, l1⟩ =
        Ray.create_prime x y ⟨w, h, fov2, o2, l2⟩) := by
  refine ⟨fun x y s => rfl, fun x y s => ?_, fun _ _ _ _ _ _ _ _ _ _ => rfl⟩
  rw [Ray.create_prime]
  exact magnitude_normalize _ (dot_z_neg_one_ne_zero _ _)

/-- C8: `Plane::normal_vec` returns the negation of the stored normal,
independent of the hit point. -/
theorem plane_normal_vec_negated (p : Plane) (hp hp2 : Point3) :
    p.normal_vec hp = p.normal.neg ∧ p.normal_vec hp = p.normal_vec hp2 :=
  ⟨rfl, rfl⟩

/-- C9: `Light` has exactly one variant, so the `panic!("not done yet")`
arm of the light dispatch in `Scene::render` is unreachable: every `Light`
is a `DirLight`, the panic-aware loop body never returns an error, and the
panic-aware per-pixel loop always succeeds with the total render's pixel. -/
theorem light_dispatch_total :
    (∀ l : Light, ∃ dl, l = Light.dirLight dl) ∧
    (∀ (light : Light) (ray : Ray) (obj : Object),
      shadePixelE light ray obj = Except.ok (shadePixel light ray obj)) ∧
    (∀ (scene : Scene) (x y : ℕ) (init : Rgb8),
      renderPixelE scene x y init = Except.ok (renderPixel scene x y init)) := by
  refine ⟨fun l => ?_, shadePixelE_ok, fun scene x y init => ?_⟩
  · cases l with
    | dirLight dl => exact ⟨dl, rfl⟩
  · rw [renderPixelE, renderPixel]
    exact foldlM_except_ok _ _ _ _ (fun b a => shadePixelE_ok _ _ _)

/-- C10: `Sphere::intersection` does not reject intersections behind the
ray origin: for the concrete sphere centered at (0,0,5) and the ray from
the origin along (0,0,-1), the projection `adj` is negative, the ray's
line passes within the radius, the intersection is `some (-7)` with -7
negative, and the render loop shades that pixel through the hit branch
(the pixel equals the hit color, not the background). -/
theorem sphere_negative_intersection :
    exSphereBehind.adj exRay < 0 ∧
    exSphereBehind.dSquared exRay < exSphereBehind.radius * exSphereBehind.radius ∧
    exSphereBehind.intersection exRay = some (-7) ∧
    (-7 : ℝ) < 0 ∧
    exSceneBehind.render 0 0 =
      hitColor (Object.sphere exSphereBehind) exDirLightZ
        (Ray.create_prime 0 0 exSceneBehind) (-7) ∧
    exSceneBehind.render 0 0 ≠ BLACK.toRgb := by
  have hprime : Ray.create_prime 0 0 exSceneBehind = exRay :=
    create_prime_1x1 exSceneBehind rfl rfl
  have hrender : exSceneBehind.render 0 0 =
      hitColor (Object.sphere exSphereBehind) exDirLightZ exRay (-7) := by
    rw [Scene.render, renderPixel]
    show shadePixel exSceneBehind.light (Ray.create_prime 0 0 exSceneBehind)
        (Object.sphere exSphereBehind) = _
    rw [hprime, shadePixel]
    show (match exSphereBehind.intersection exRay with
      | some d => hitColor (Object.sphere exSphereBehind)
          ((Light.dirLight exDirLightZ).dirLightData) exRay d
      | none => BLACK.toRgb) = _
    rw [exSphereBehind_hit]
    rfl
  refine ⟨?_, ?_, exSphereBehind_hit, by norm_num, ?_, ?_⟩
  · rw [exSphereBehind_adj]; norm_num
  · rw [exSphereBehind_dSquared]; norm_num [exSphereBehind]
  · rw [hrender, hprime]
  · rw [hrender, exSphereBehind_hitColor]
    simp [BLACK, Rgba8.toRgb]

end

end RT
